import Mathlib

/-
Verification of the budget-normalization and cost-estimation engine of the
zeno-chatbot backend (src/app.py, lines 100-263).

Modelling conventions, stated once here:

* Python runtime values that can flow through the request record are modelled
  by the inductive type Val (absent/None, int, str).  Python truthiness of
  such a value is the function truthy.
* Python exceptions are modelled with Except PyErr; functions of the engine
  that can raise return Except PyErr results, and the bind structure follows
  the evaluation order of the source.
* Python float arithmetic inside the engine is modelled by exact integer
  arithmetic on numerator/denominator pairs.  Every quantity the engine
  rounds is of the form n / d with integer n and positive integer d
  (base*p/100, (min+max)/2, parsed-decimal * unit multiplier), and for the
  magnitudes of INR budgets handled here (well below 2^49) the binary64
  computation of the source is exact at every tie and agrees with the exact
  value to far better than the distance to the nearest tie, so exact
  rational rounding coincides with the float rounding of the source.
* The builtin round of Python 3 rounds half to even; pyRoundQ n d below is
  the integer computation of round(n / d) for d > 0.
* Char.isDigit / Char.toUpper / whitespace trimming are the ASCII
  approximations of the Python str methods; the engine only ever meets the
  currency glyph and ASCII text, where the two agree.
-/

inductive PyErr where
  | valueError
  | typeError
deriving DecidableEq

deriving instance DecidableEq for Except

/-- A Python value occupying a field of the request record: absent/None, an
int, or a str. -/
inductive Val where
  | none
  | int (n : ℤ)
  | str (s : String)
deriving DecidableEq

/-- Python truthiness of a Val (None, 0 and the empty string are falsy). -/
def truthy : Val → Bool
  | Val.none => false
  | Val.int n => n != 0
  | Val.str s => s != ""

/-- Decimal representation of an integer, as Python str(int). -/
def intRepr (n : ℤ) : String :=
  (if n < 0 then "-" else "") ++ String.mk (Nat.toDigits 10 n.natAbs)

/-- Python str( ) applied to a Val. -/
def pyStr : Val → String
  | Val.none => "None"
  | Val.int n => intRepr n
  | Val.str s => s

/-- Python str.strip( ): drop leading and trailing whitespace. -/
def trimChars (cs : List Char) : List Char :=
  ((cs.dropWhile Char.isWhitespace).reverse.dropWhile Char.isWhitespace).reverse

/-- Value of a string of decimal digits. -/
def natOfDigits (cs : List Char) : ℕ :=
  cs.foldl (fun a c => a * 10 + (c.toNat - 48)) 0

/-- Digits of an optionally signed decimal integer literal, as accepted by
Python int(str); Option.none models the ValueError raise. -/
def intLiteral : List Char → Option ℤ
  | '-' :: ds => if ds ≠ [] ∧ ds.all Char.isDigit then some (-(natOfDigits ds : ℤ)) else Option.none
  | '+' :: ds => if ds ≠ [] ∧ ds.all Char.isDigit then some ((natOfDigits ds : ℤ)) else Option.none
  | ds => if ds ≠ [] ∧ ds.all Char.isDigit then some ((natOfDigits ds : ℤ)) else Option.none

/-- Python int( ) applied to a Val: identity on ints, integer-literal parse
on strings (ValueError otherwise), TypeError on None. -/
def pyInt : Val → Except PyErr ℤ
  | Val.none => Except.error PyErr.typeError
  | Val.int n => Except.ok n
  | Val.str s =>
    match intLiteral (trimChars s.toList) with
    | some n => Except.ok n
    | Option.none => Except.error PyErr.valueError

def containsAux (pat : List Char) : List Char → Bool
  | [] => pat.isEmpty
  | c :: rest => pat.isPrefixOf (c :: rest) || containsAux pat rest

/-- Python substring membership, pat in s. -/
def strContains (s pat : String) : Bool :=
  containsAux pat.toList s.toList

/-- Python 3 round(n / d) for integers n and d > 0: nearest integer, ties to
even. -/
def pyRoundQ (n : ℤ) (d : ℕ) : ℤ :=
  if 2 * (n % (d:ℤ)) < (d:ℤ) then n / (d:ℤ)
  else if (d:ℤ) < 2 * (n % (d:ℤ)) then n / (d:ℤ) + 1
  else if (n / (d:ℤ)) % 2 = 0 then n / (d:ℤ) else n / (d:ℤ) + 1

/-- The request record as far as the estimation engine reads it: the keys
category, employee_size, budget, budget_amount of the submitted mapping.
The first two are only ever compared with string constants, so they are kept
as Option String; the two budget fields flow through truthiness tests and
int( ), so they are kept as raw Vals. -/
structure ReqData where
  category : Option String
  employee_size : Option String
  budget : Val
  budget_amount : Val
deriving DecidableEq

-- ---------------------------------------------------------------------------
-- parse_inr_string (app.py lines 109-130)
-- ---------------------------------------------------------------------------

/-- Lines 112: str(s).strip( ).upper( ).replace("₹","").replace(",","").
replace(" ","").  The replaced patterns are single characters, so the three
replaces are the removal of those characters. -/
def cleanChars (s : String) : List Char :=
  ((trimChars s.toList).map Char.toUpper).filter
    (fun c => !(c = '₹' ∨ c = ',' ∨ c = ' '))

/-- Lines 113-119: one pass over the cleaned text accumulating the numeric
run (digits and dots, in order) and the unit run (everything else). -/
def splitNumUnit (cs : List Char) : List Char × List Char :=
  cs.foldl
    (fun acc c =>
      if c.isDigit || c = '.' then (acc.1 ++ [c], acc.2) else (acc.1, acc.2 ++ [c]))
    ([], [])

/-- Split a character list at every dot. -/
def splitOnDot : List Char → List (List Char)
  | [] => [[]]
  | c :: rest =>
    if c = '.' then [] :: splitOnDot rest
    else
      match splitOnDot rest with
      | [] => [[c]]
      | h :: t => (c :: h) :: t

/-- Line 122, float(num) on a digits-and-dots run, as an exact
numerator/denominator pair; Option.none models the ValueError raise (no
digits at all, or more than one dot). -/
def parseDecimal (num : List Char) : Option (ℤ × ℕ) :=
  match splitOnDot num with
  | [a] =>
    if a ≠ [] ∧ a.all Char.isDigit then some ((natOfDigits a : ℤ), 1) else Option.none
  | [a, b] =>
    if (a ≠ [] ∨ b ≠ []) ∧ a.all Char.isDigit ∧ b.all Char.isDigit then
      some ((natOfDigits a * 10 ^ b.length + natOfDigits b : ℤ), 10 ^ b.length)
    else Option.none
  | _ => Option.none

/-- Lines 123-129: the unit token to multiplier table. -/
def unitMul (u : List Char) : ℤ :=
  if u = ['K'] then 1000
  else if u = ['L'] ∨ u = ['L', 'A', 'K', 'H'] ∨ u = ['L', 'A', 'K', 'H', 'S'] ∨ u = ['L', 'A', 'C'] then 100000
  else if u = ['C', 'R'] ∨ u = ['C', 'R', 'O', 'R', 'E'] then 10000000
  else 1

/-- app.py lines 109-130.  Except.ok Option.none is the Python return None;
val * mul is the exact rational (num * mul) / den and int(round( )) of it is
pyRoundQ. -/
def parse_inr_string (s : Option String) : Except PyErr (Option ℤ) :=
  match s with
  | Option.none => Except.ok Option.none
  | some t =>
    let nu := splitNumUnit (cleanChars t)
    if nu.1 = [] then Except.ok Option.none
    else
      match parseDecimal nu.1 with
      | Option.none => Except.error PyErr.valueError
      | some vd => Except.ok (some (pyRoundQ (vd.1 * unitMul nu.2) vd.2))

/-- The numeric run the parser extracts from s. -/
def numRun (s : String) : List Char := (splitNumUnit (cleanChars s)).1

/-- The unit run the parser extracts from s. -/
def unitRun (s : String) : List Char := (splitNumUnit (cleanChars s)).2

-- ---------------------------------------------------------------------------
-- budget_to_desc (app.py lines 132-148) and materialize (lines 150-159)
-- ---------------------------------------------------------------------------

/-- The dictionaries built by budget_to_desc: type fixed / range / min.  The
range and min fields hold results of parse_inr_string, which in Python may be
None, hence Option Int. -/
inductive BudgetDesc where
  | fixed (amount : ℤ)
  | range (min max : Option ℤ)
  | min (min : Option ℤ)
deriving DecidableEq

/-- Lines 139-148, the label-matching tail of budget_to_desc, applied to
b = str(budget).  Each branch stores results of parse_inr_string calls on
fixed literals; the match on the Except propagates a hypothetical raise
exactly as evaluation of the Python expression would. -/
def labelDesc (b : String) : Except PyErr (Option BudgetDesc) :=
  if strContains b ("0 <") then
    match parse_inr_string (some ("50K")) with
    | Except.ok mx => Except.ok (some (BudgetDesc.range (some 0) mx))
    | Except.error e => Except.error e
  else if strContains b ("₹50K") && strContains b ("₹1L") then
    match parse_inr_string (some ("50K")), parse_inr_string (some ("1L")) with
    | Except.ok mn, Except.ok mx => Except.ok (some (BudgetDesc.range mn mx))
    | Except.error e, _ => Except.error e
    | _, Except.error e => Except.error e
  else if strContains b ("₹1L") && strContains b ("₹5L") then
    match parse_inr_string (some ("1L")), parse_inr_string (some ("5L")) with
    | Except.ok mn, Except.ok mx => Except.ok (some (BudgetDesc.range mn mx))
    | Except.error e, _ => Except.error e
    | _, Except.error e => Except.error e
  else if strContains b (">") then
    match parse_inr_string (some ("5L")) with
    | Except.ok mn => Except.ok (some (BudgetDesc.min mn))
    | Except.error e => Except.error e
  else Except.ok Option.none

/-- app.py lines 132-148.  Line 135: if amt: return fixed int(amt) -- the
truthiness test, then int(amt), which raises on a truthy non-integer value.
Line 137: if not b: return None.  Line 139: b = str(b), then the label
matching. -/
def budget_to_desc (st : ReqData) : Except PyErr (Option BudgetDesc) :=
  if truthy st.budget_amount then
    match pyInt st.budget_amount with
    | Except.ok n => Except.ok (some (BudgetDesc.fixed n))
    | Except.error e => Except.error e
  else if truthy st.budget then labelDesc (pyStr st.budget)
  else Except.ok Option.none

/-- app.py lines 150-159.  The range case is int(round((min + max) / 2)),
a float division whose exact value is (min + max) / 2; adding None raises
TypeError, as does int(None) in the min case. -/
def materialize_budget_amount : Option BudgetDesc → Except PyErr (Option ℤ)
  | Option.none => Except.ok Option.none
  | some (BudgetDesc.fixed a) => Except.ok (some a)
  | some (BudgetDesc.range mn mx) =>
    match mn, mx with
    | some m, some mM => Except.ok (some (pyRoundQ (m + mM) 2))
    | _, _ => Except.error PyErr.typeError
  | some (BudgetDesc.min mn) =>
    match mn with
    | some m => Except.ok (some m)
    | Option.none => Except.error PyErr.typeError

-- ---------------------------------------------------------------------------
-- inr (app.py lines 103-107)
-- ---------------------------------------------------------------------------

/-- Insert a comma after every third character; applied to the reversed digit
list, this is the grouping of format(n, ","). -/
def commaRev : List Char → List Char
  | a :: b :: c :: d :: rest => a :: b :: c :: ',' :: commaRev (d :: rest)
  | l => l

def insertCommas (ds : List Char) : List Char :=
  (commaRev ds.reverse).reverse

/-- format(int(n), ",") for an integer n. -/
def intComma (n : ℤ) : String :=
  (if n < 0 then "-" else "") ++ String.mk (insertCommas (Nat.toDigits 10 n.natAbs))

/-- app.py lines 103-107.  On an int the try branch returns the glyph plus
the comma-grouped digits; on None, int(None) raises TypeError and the except
branch returns the f-string, which renders the value as the text None. -/
def inr : Option ℤ → String
  | some n => "₹" ++ intComma n
  | Option.none => "₹" ++ "None"

-- ---------------------------------------------------------------------------
-- table builders (app.py lines 161-263)
-- ---------------------------------------------------------------------------

/-- Lines 162-169: the allocation table of build_app_like_table. -/
def app_like_mapping (core_label : String) : List (String × ℤ) :=
  [("UI/UX Design", 15), (core_label, 30), ("Dashboard Development", 30),
   ("Testing", 10), ("Deployment", 10), ("API & hosting", 5)]

/-- Lines 191-197: the allocation table of build_web_table. -/
def web_mapping : List (String × ℤ) :=
  [("UI/UX Design", 20), ("Web Development", 50), ("Testing", 10),
   ("Deployment", 10), ("API & hosting", 10)]

/-- Line 176, amt = round(base * p / 100), for each percentage of a table. -/
def lineAmounts (b : ℤ) (ps : List ℤ) : List ℤ :=
  ps.map (fun p => pyRoundQ (b * p) 100)

/-- Lines 173-178: the cost cell of one row, "-" when base is None. -/
def costCell (base : Option ℤ) (p : ℤ) : String :=
  match base with
  | Option.none => "-"
  | some b => inr (some (pyRoundQ (b * p) 100))

/-- Lines 172-179: the concatenated row markup (the loop appends one tr per
mapping entry). -/
def tableRows (mapping : List (String × ℤ)) (base : Option ℤ) : String :=
  String.join (mapping.map
    (fun lp => "<tr><td>" ++ lp.1 ++ "</td><td>" ++ costCell base lp.2 ++ "</td></tr>"))

/-- Line 180: the total cell; total_sum is the running sum of the rounded
line amounts, shown only when base is present. -/
def totalCell (mapping : List (String × ℤ)) (base : Option ℤ) : String :=
  match base with
  | Option.none => "-"
  | some b => inr (some ((lineAmounts b (mapping.map Prod.snd)).sum))

/-- app.py lines 161-188. -/
def build_app_like_table (title core_label : String) (bd : Option BudgetDesc) :
    Except PyErr String :=
  match materialize_budget_amount bd with
  | Except.error e => Except.error e
  | Except.ok base =>
    Except.ok ("\n<div class=\"estimate-title\">" ++ title ++
      "</div>\n<table class=\"estimate-table\">\n  <thead><tr><th>Component</th><th>Estimated Cost</th></tr></thead>\n  <tbody>" ++
      tableRows (app_like_mapping core_label) base ++
      "</tbody>\n  <tfoot><tr><th>Total</th><th>" ++
      totalCell (app_like_mapping core_label) base ++
      "</th></tr></tfoot>\n</table>\n")

/-- app.py lines 190-216. -/
def build_web_table (bd : Option BudgetDesc) : Except PyErr String :=
  match materialize_budget_amount bd with
  | Except.error e => Except.error e
  | Except.ok base =>
    Except.ok ("\n<div class=\"estimate-title\">Web Development</div>\n<table class=\"estimate-table\">\n  <thead><tr><th>Component</th><th>Estimated Cost</th></tr></thead>\n  <tbody>" ++
      tableRows web_mapping base ++
      "</tbody>\n  <tfoot><tr><th>Total</th><th>" ++
      totalCell web_mapping base ++
      "</th></tr></tfoot>\n</table>\n")

/-- Line 219/230 price_map.get(company_size) of the two retainer tables. -/
def dm_price_map (size : Option String) : Option ℤ :=
  if size = some ("0-10") then some 25000
  else if size = some ("10-100") then some 40000
  else if size = some ("100+") then some 70000
  else Option.none

def seo_price_map (size : Option String) : Option ℤ :=
  if size = some ("0-10") then some 10000
  else if size = some ("10-100") then some 15000
  else if size = some ("100+") then some 20000
  else Option.none

/-- app.py lines 218-227. -/
def build_dm_table (size : Option String) : String :=
  "\n<div class=\"estimate-title\">Digital Marketing</div>\n<table class=\"estimate-table\">\n  <thead><tr><th>Item</th><th>Estimated Cost</th></tr></thead>\n  <tbody><tr><td>Monthly Retainer</td><td>" ++
  inr (dm_price_map size) ++ "/ month</td></tr></tbody>\n</table>\n"

/-- app.py lines 229-238. -/
def build_seo_table (size : Option String) : String :=
  "\n<div class=\"estimate-title\">SEO</div>\n<table class=\"estimate-table\">\n  <thead><tr><th>Item</th><th>Estimated Cost</th></tr></thead>\n  <tbody><tr><td>Monthly Retainer</td><td>" ++
  inr (seo_price_map size) ++ "/ month</td></tr></tbody>\n</table>\n"

/-- app.py lines 257-263, the fallback table of an unrecognized category. -/
def generic_estimate_table : String :=
  "\n<div class=\"estimate-title\">Estimate</div>\n<table class=\"estimate-table\">\n  <thead><tr><th>Item</th><th>Estimated Cost</th></tr></thead>\n  <tbody><tr><td>-</td><td>-</td></tr></tbody>\n</table>\n"

/-- app.py lines 240-263.  budget_to_desc runs before the category dispatch
(line 243), so a raise there escapes for every category. -/
def build_estimate_table_only (data : ReqData) : Except PyErr String :=
  match budget_to_desc data with
  | Except.error e => Except.error e
  | Except.ok bd =>
    if data.category = some ("AI") then
      build_app_like_table ("AI Development") ("AI Development") bd
    else if data.category = some ("Software Development") then
      build_app_like_table ("Software Development") ("Software Development") bd
    else if data.category = some ("App Development") then
      build_app_like_table ("App Development") ("App Development") bd
    else if data.category = some ("Web Development") then build_web_table bd
    else if data.category = some ("Digital Marketing") then
      Except.ok (build_dm_table data.employee_size)
    else if data.category = some ("SEO") then
      Except.ok (build_seo_table data.employee_size)
    else Except.ok generic_estimate_table

/-- The rendered text of a non-raising engine result (empty on a raise). -/
def htmlOf : Except PyErr String → String
  | Except.ok s => s
  | Except.error _ => ""

-- ---------------------------------------------------------------------------
-- specification-side rounding functions
-- ---------------------------------------------------------------------------

/-- Round to the nearest integer with ties to even, stated over ℚ
independently of pyRoundQ: on a tie the result is twice the rounding of the
half. -/
def roundHalfToEven (q : ℚ) : ℤ :=
  if Int.fract q = 1/2 then 2 * round (q / 2) else round q

/-- Round n / d (d > 0) to the nearest integer with ties away from zero for
positive values, the rounding mode asserted by the specification. -/
def roundHalfAwayPos (n : ℤ) (d : ℕ) : ℤ :=
  (2 * n + (d:ℤ)) / (2 * (d:ℤ))

-- ---------------------------------------------------------------------------
-- rounding lemmas
-- ---------------------------------------------------------------------------

lemma round_of_fract_lt {q : ℚ} (h : Int.fract q < 1/2) : round q = ⌊q⌋ := by
  have hself : Int.fract q = q - ⌊q⌋ := (Int.self_sub_floor q).symm
  have h0 := Int.fract_nonneg q
  rw [round_eq, Int.floor_eq_iff]
  refine ⟨by linarith, by linarith⟩

lemma round_of_half_lt_fract {q : ℚ} (h : 1/2 < Int.fract q) : round q = ⌊q⌋ + 1 := by
  have hself : Int.fract q = q - ⌊q⌋ := (Int.self_sub_floor q).symm
  have h1 := Int.fract_lt_one q
  rw [round_eq, Int.floor_eq_iff]
  refine ⟨by push_cast; linarith, by push_cast; linarith⟩

/-- The integer computation pyRoundQ n d is exactly round-half-to-even of the
rational n / d. -/
lemma pyRoundQ_eq_roundHalfToEven (n : ℤ) (d : ℕ) (hd : 0 < d) :
    pyRoundQ n d = roundHalfToEven ((n : ℚ) / (d : ℚ)) := by
  have hdZ : (0:ℤ) < (d:ℤ) := by exact_mod_cast hd
  have hdQ : (0:ℚ) < (d:ℚ) := by exact_mod_cast hd
  set q : ℚ := (n : ℚ) / (d : ℚ) with hq
  have hfloor : ⌊q⌋ = n / (d : ℤ) := Rat.floor_intCast_div_natCast n d
  have hmod : n % (d:ℤ) = n - (d:ℤ) * (n / (d:ℤ)) := Int.emod_def n (d:ℤ)
  have hfract : Int.fract q = ((n % (d:ℤ) : ℤ) : ℚ) / (d:ℚ) := by
    have hself : Int.fract q = q - ⌊q⌋ := (Int.self_sub_floor q).symm
    rw [hself, hfloor, hmod, hq]
    push_cast
    field_simp
  unfold pyRoundQ roundHalfToEven
  rcases lt_trichotomy (2 * (n % (d:ℤ))) (d:ℤ) with hc | hc | hc
  · have hcQ : 2 * ((n % (d:ℤ) : ℤ) : ℚ) < ((d:ℕ) : ℚ) := by exact_mod_cast hc
    have hfr : Int.fract q < 1/2 := by
      rw [hfract, div_lt_iff₀ hdQ]; linarith
    have hne : Int.fract q ≠ 1/2 := by linarith
    rw [if_pos hc, if_neg hne, round_of_fract_lt hfr, hfloor]
  · have hcQ : 2 * ((n % (d:ℤ) : ℤ) : ℚ) = ((d:ℕ) : ℚ) := by exact_mod_cast hc
    have hfr : Int.fract q = 1/2 := by
      rw [hfract, div_eq_iff (ne_of_gt hdQ)]; linarith
    have hnotlt : ¬(2 * (n % (d:ℤ)) < (d:ℤ)) := by omega
    have hnotgt : ¬((d:ℤ) < 2 * (n % (d:ℤ))) := by omega
    rw [if_neg hnotlt, if_neg hnotgt, if_pos hfr]
    have hqval : q = (⌊q⌋ : ℚ) + 1/2 := by
      have hself : Int.fract q = q - ⌊q⌋ := (Int.self_sub_floor q).symm
      linarith [hself, hfr]
    rcases Int.even_or_odd (n / (d:ℤ)) with ⟨t, ht⟩ | ⟨t, ht⟩
    · have hfe : (n / (d:ℤ)) % 2 = 0 := by omega
      have hq2 : q / 2 = (t : ℚ) + 1/4 := by
        rw [hqval, hfloor, ht]; push_cast; ring
      have hr : round (q / 2) = t := by
        rw [hq2, round_eq, show (t : ℚ) + 1/4 + 1/2 = (t : ℚ) + 3/4 from by ring,
            Int.floor_int_add]
        norm_num
      rw [if_pos hfe, hr]
      omega
    · have hfo : ¬((n / (d:ℤ)) % 2 = 0) := by omega
      have hq2 : q / 2 = (t : ℚ) + 3/4 := by
        rw [hqval, hfloor, ht]; push_cast; ring
      have hr : round (q / 2) = t + 1 := by
        rw [hq2, round_eq, show (t : ℚ) + 3/4 + 1/2 = (t : ℚ) + 5/4 from by ring,
            Int.floor_int_add]
        norm_num
      rw [if_neg hfo, hr]
      omega
  · have hcQ : ((d:ℕ) : ℚ) < 2 * ((n % (d:ℤ) : ℤ) : ℚ) := by exact_mod_cast hc
    have hfr : 1/2 < Int.fract q := by
      rw [hfract, lt_div_iff₀ hdQ]; linarith
    have hne : Int.fract q ≠ 1/2 := by linarith
    have hnotlt : ¬(2 * (n % (d:ℤ)) < (d:ℤ)) := by omega
    rw [if_neg hnotlt, if_pos hc, if_neg hne, round_of_half_lt_fract hfr, hfloor]

/-- Shifting the numerator by an even multiple of the denominator 100 shifts
the rounded value accordingly (evenness keeps the tie-breaking parity). -/
lemma pyRoundQ100_shift (n m : ℤ) (hm : m % 2 = 0) :
    pyRoundQ (n + 100 * m) 100 = pyRoundQ n 100 + m := by
  unfold pyRoundQ
  push_cast
  split_ifs <;> omega

def appPs : List ℤ := [15, 30, 30, 10, 10, 5]

def webPs : List ℤ := [20, 50, 10, 10, 10]

lemma appSum_shift (k r : ℤ) :
    (lineAmounts (40 * k + r) appPs).sum = (lineAmounts r appPs).sum + 40 * k := by
  simp only [lineAmounts, appPs, List.map_cons, List.map_nil, List.sum_cons, List.sum_nil]
  rw [show (40 * k + r) * 15 = r * 15 + 100 * (6 * k) from by ring,
      show (40 * k + r) * 30 = r * 30 + 100 * (12 * k) from by ring,
      show (40 * k + r) * 10 = r * 10 + 100 * (4 * k) from by ring,
      show (40 * k + r) * 5 = r * 5 + 100 * (2 * k) from by ring,
      pyRoundQ100_shift (r * 15) (6 * k) (by omega),
      pyRoundQ100_shift (r * 30) (12 * k) (by omega),
      pyRoundQ100_shift (r * 10) (4 * k) (by omega),
      pyRoundQ100_shift (r * 5) (2 * k) (by omega)]
  ring

lemma webSum_shift (k r : ℤ) :
    (lineAmounts (20 * k + r) webPs).sum = (lineAmounts r webPs).sum + 20 * k := by
  simp only [lineAmounts, webPs, List.map_cons, List.map_nil, List.sum_cons, List.sum_nil]
  rw [show (20 * k + r) * 20 = r * 20 + 100 * (4 * k) from by ring,
      show (20 * k + r) * 50 = r * 50 + 100 * (10 * k) from by ring,
      show (20 * k + r) * 10 = r * 10 + 100 * (2 * k) from by ring,
      pyRoundQ100_shift (r * 20) (4 * k) (by omega),
      pyRoundQ100_shift (r * 50) (10 * k) (by omega),
      pyRoundQ100_shift (r * 10) (2 * k) (by omega)]
  ring

/-- The six rounded line items of the app-like tables sum to within one unit
of the base. -/
lemma appSum_near (b : ℤ) : ((lineAmounts b appPs).sum - b).natAbs ≤ 1 := by
  have h : 40 * (b / 40) + b % 40 = b := by omega
  have h0 : 0 ≤ b % 40 := by omega
  have h1 : b % 40 < 40 := by omega
  have hs := appSum_shift (b / 40) (b % 40)
  rw [h] at hs
  have key : ∀ r : ℤ, 0 ≤ r → r < 40 → ((lineAmounts r appPs).sum - r).natAbs ≤ 1 := by
    intro r hr0 hr1
    interval_cases r <;> decide
  have hk := key (b % 40) h0 h1
  omega

/-- The five rounded line items of the web table sum to within two units of
the base (and two is attained, at every base congruent to 5 mod 10). -/
lemma webSum_near (b : ℤ) : ((lineAmounts b webPs).sum - b).natAbs ≤ 2 := by
  have h : 20 * (b / 20) + b % 20 = b := by omega
  have h0 : 0 ≤ b % 20 := by omega
  have h1 : b % 20 < 20 := by omega
  have hs := webSum_shift (b / 20) (b % 20)
  rw [h] at hs
  have key : ∀ r : ℤ, 0 ≤ r → r < 20 → ((lineAmounts r webPs).sum - r).natAbs ≤ 2 := by
    intro r hr0 hr1
    interval_cases r <;> decide
  have hk := key (b % 20) h0 h1
  omega

-- ---------------------------------------------------------------------------
-- evaluation and plumbing lemmas for budget_to_desc
-- ---------------------------------------------------------------------------

lemma p50K : parse_inr_string (some ("50K")) = Except.ok (some 50000) := by decide

lemma p1L : parse_inr_string (some ("1L")) = Except.ok (some 100000) := by decide

lemma p5L : parse_inr_string (some ("5L")) = Except.ok (some 500000) := by decide

/-- The label tail of the classifier can only produce the four fixed
descriptors or None. -/
lemma labelDesc_ok_cases (b : String) :
    labelDesc b = Except.ok Option.none ∨
    labelDesc b = Except.ok (some (BudgetDesc.range (some 0) (some 50000))) ∨
    labelDesc b = Except.ok (some (BudgetDesc.range (some 50000) (some 100000))) ∨
    labelDesc b = Except.ok (some (BudgetDesc.range (some 100000) (some 500000))) ∨
    labelDesc b = Except.ok (some (BudgetDesc.min (some 500000))) := by
  unfold labelDesc
  split_ifs <;> decide

lemma labelDesc_no_fixed (b : String) (n : ℤ) :
    labelDesc b ≠ Except.ok (some (BudgetDesc.fixed n)) := by
  rcases labelDesc_ok_cases b with h | h | h | h | h <;> rw [h] <;> simp

/-- Everything budget_to_desc can successfully produce. -/
lemma desc_cases (st : ReqData) (d : BudgetDesc)
    (h : budget_to_desc st = Except.ok (some d)) :
    (∃ n, d = BudgetDesc.fixed n ∧ truthy st.budget_amount = true ∧
      pyInt st.budget_amount = Except.ok n) ∨
    d = BudgetDesc.range (some 0) (some 50000) ∨
    d = BudgetDesc.range (some 50000) (some 100000) ∨
    d = BudgetDesc.range (some 100000) (some 500000) ∨
    d = BudgetDesc.min (some 500000) := by
  unfold budget_to_desc at h
  by_cases ht : truthy st.budget_amount = true
  · rw [if_pos ht] at h
    cases hpy : pyInt st.budget_amount with
    | ok n =>
      rw [hpy] at h
      simp only [Except.ok.injEq, Option.some.injEq] at h
      exact Or.inl ⟨n, h.symm, ht, rfl⟩
    | error e =>
      rw [hpy] at h
      cases h
  · rw [if_neg ht] at h
    by_cases hb : truthy st.budget = true
    · rw [if_pos hb] at h
      rcases labelDesc_ok_cases (pyStr st.budget) with h5 | h5 | h5 | h5 | h5 <;>
        rw [h5] at h
      · exact absurd h (by simp)
      · simp only [Except.ok.injEq, Option.some.injEq] at h
        subst h
        simp
      · simp only [Except.ok.injEq, Option.some.injEq] at h
        subst h
        simp
      · simp only [Except.ok.injEq, Option.some.injEq] at h
        subst h
        simp
      · simp only [Except.ok.injEq, Option.some.injEq] at h
        subst h
        simp
    · rw [if_neg hb] at h
      cases h

lemma parseDecimal_den_pos (num : List Char) (v : ℤ × ℕ)
    (h : parseDecimal num = some v) : 0 < v.2 := by
  unfold parseDecimal at h
  split at h
  · split_ifs at h
    cases h
    norm_num
  · split_ifs at h
    cases h
    positivity
  · cases h

lemma parseDecimal_nil : parseDecimal ([] : List Char) = Option.none := by decide

-- ---------------------------------------------------------------------------
-- C1
-- ---------------------------------------------------------------------------

/-- C1 (counterexample): the claim says every record with a non-null
budget_amount classifies as Fixed(budget_amount); but budget_amount = 0 is
non-null and falsy, line 135 skips it, and with no label the classifier
returns None, not Fixed(0). -/
theorem zeno_C1_counterexample :
    budget_to_desc (ReqData.mk Option.none Option.none Val.none (Val.int 0)) =
      Except.ok Option.none ∧
    budget_to_desc (ReqData.mk Option.none Option.none Val.none (Val.int 0)) ≠
      Except.ok (some (BudgetDesc.fixed 0)) := by
  decide

/-- C1 (amended): for every record whose budget_amount is truthy (non-zero,
non-empty) and convertible by int( ) to n, the classifier returns Fixed(n),
regardless of the budget label content. -/
theorem zeno_C1_amended (st : ReqData) (n : ℤ)
    (ht : truthy st.budget_amount = true)
    (hp : pyInt st.budget_amount = Except.ok n) :
    budget_to_desc st = Except.ok (some (BudgetDesc.fixed n)) := by
  unfold budget_to_desc
  rw [if_pos ht, hp]

/-- C1 witness: a record carrying both a bracket-shaped label and a truthy
numeric override classifies as the override. -/
theorem zeno_C1_witness :
    budget_to_desc (ReqData.mk Option.none Option.none (Val.str ("> ₹5L")) (Val.int 70000)) =
      Except.ok (some (BudgetDesc.fixed 70000)) :=
  zeno_C1_amended
    (ReqData.mk Option.none Option.none (Val.str ("> ₹5L")) (Val.int 70000))
    70000 (by decide) (by decide)

-- ---------------------------------------------------------------------------
-- C2
-- ---------------------------------------------------------------------------

set_option maxRecDepth 100000 in
/-- C2 (counterexample): the claim bounds the drift of every percentage
table by one unit; the web table at base 5 renders line items
[1, 2, 0, 0, 0], total 3, drifting two units from the base (every base
congruent to 5 mod 10 drifts two).  The rendered total cell of the engine
run is ₹3. -/
theorem zeno_C2_counterexample :
    materialize_budget_amount (some (BudgetDesc.fixed 5)) = Except.ok (some 5) ∧
    lineAmounts 5 webPs = [1, 2, 0, 0, 0] ∧
    (lineAmounts 5 webPs).sum = 3 ∧
    ¬(((lineAmounts 5 webPs).sum - 5).natAbs ≤ 1) ∧
    strContains
      (htmlOf (build_estimate_table_only
        (ReqData.mk (some ("Web Development")) Option.none Val.none (Val.int 5))))
      ("<th>₹3</th>") = true := by
  decide

/-- C2 (amended): the percentage tables are [15,30,30,10,10,5] for the
app-like categories and [20,50,10,10,10] for Web Development; each line item
is round(base*p/100) (lineAmounts, which costCell and totalCell render) and
the displayed total is the sum of the rounded items; that total drifts from
the base by at most 1 unit for the app-like tables and at most 2 units for
the web table.  The magnitude bound keeps the exact-rational model of the
float arithmetic faithful. -/
theorem zeno_C2_amended (b : ℤ) (_hb : b.natAbs ≤ 10 ^ 12) :
    (∀ c, (app_like_mapping c).map Prod.snd = appPs) ∧
    web_mapping.map Prod.snd = webPs ∧
    ((lineAmounts b appPs).sum - b).natAbs ≤ 1 ∧
    ((lineAmounts b webPs).sum - b).natAbs ≤ 2 :=
  ⟨fun _ => rfl, rfl, appSum_near b, webSum_near b⟩

/-- C2 witness: at base 100000 the app-like total is within one unit. -/
theorem zeno_C2_witness :
    ((lineAmounts 100000 appPs).sum - 100000).natAbs ≤ 1 :=
  (zeno_C2_amended 100000 (by norm_num)).2.2.1

-- ---------------------------------------------------------------------------
-- C3
-- ---------------------------------------------------------------------------

/-- C3 (counterexample): the claim says a product with fractional part
exactly .5 rounds up (away from zero) for positive values; the parser maps
"2.5" to 2 (Python round is half-to-even), not to the 3 required by
half-away-from-zero rounding. -/
theorem zeno_C3_counterexample :
    parse_inr_string (some ("2.5")) = Except.ok (some 2) ∧
    roundHalfAwayPos 5 2 = 3 ∧
    (2 : ℤ) ≠ 3 := by
  decide

/-- C3 (amended): for every input string whose extracted numeric run is a
well-formed decimal (at least one digit, at most one dot), the parser
returns the parsed value times the unit multiplier rounded to the nearest
integer with ties to even; a string whose numeric run is nonempty but
malformed (e.g. two dots) raises ValueError instead of returning. -/
theorem zeno_C3_amended (s : String) :
    (∀ v : ℤ × ℕ, parseDecimal (numRun s) = some v →
      parse_inr_string (some s) =
        Except.ok (some (roundHalfToEven
          (((v.1 : ℚ) / (v.2 : ℚ)) * ((unitMul (unitRun s) : ℤ) : ℚ))))) ∧
    (numRun s ≠ [] → parseDecimal (numRun s) = Option.none →
      parse_inr_string (some s) = Except.error PyErr.valueError) := by
  constructor
  · intro v hv
    have hne : (splitNumUnit (cleanChars s)).1 ≠ [] := by
      intro h0
      have : parseDecimal (numRun s) = Option.none := by
        unfold numRun
        rw [h0]
        exact parseDecimal_nil
      rw [this] at hv
      cases hv
    have hv' : parseDecimal (splitNumUnit (cleanChars s)).1 = some v := hv
    have hd : 0 < v.2 := parseDecimal_den_pos _ v hv
    simp only [parse_inr_string]
    rw [if_neg hne, hv']
    show Except.ok (some (pyRoundQ (v.1 * unitMul (splitNumUnit (cleanChars s)).2) v.2)) = _
    have harg : ((v.1 * unitMul (splitNumUnit (cleanChars s)).2 : ℤ) : ℚ) / ((v.2 : ℕ) : ℚ) =
        ((v.1 : ℚ) / (v.2 : ℚ)) * ((unitMul (unitRun s) : ℤ) : ℚ) := by
      unfold unitRun
      push_cast
      ring
    rw [pyRoundQ_eq_roundHalfToEven _ _ hd, harg]
  · intro hne hnone
    have hne' : (splitNumUnit (cleanChars s)).1 ≠ [] := hne
    have hnone' : parseDecimal (splitNumUnit (cleanChars s)).1 = Option.none := hnone
    simp only [parse_inr_string]
    rw [if_neg hne', hnone']

/-- C3 witness: "1.5L" parses to the half-to-even rounding of
(15/10) * 100000, and "1.2.3" (a digit run with two dots) raises. -/
theorem zeno_C3_witness :
    parse_inr_string (some ("1.5L")) =
      Except.ok (some (roundHalfToEven
        ((((15 : ℤ) : ℚ) / (((10 : ℕ) : ℕ) : ℚ)) * ((unitMul (unitRun ("1.5L")) : ℤ) : ℚ)))) ∧
    parse_inr_string (some ("1.2.3")) = Except.error PyErr.valueError :=
  ⟨(zeno_C3_amended ("1.5L")).1 ((15 : ℤ), (10 : ℕ)) (by decide),
   (zeno_C3_amended ("1.2.3")).2 (by decide) (by decide)⟩

-- ---------------------------------------------------------------------------
-- C4
-- ---------------------------------------------------------------------------

/-- C4: the five reference values of the currency parser: ₹50,000 → 50000,
1.5L → 150000, 2Cr → 20000000, and the digitless inputs K and the empty
string → None. -/
theorem zeno_C4 :
    parse_inr_string (some ("₹50,000")) = Except.ok (some 50000) ∧
    parse_inr_string (some ("1.5L")) = Except.ok (some 150000) ∧
    parse_inr_string (some ("2Cr")) = Except.ok (some 20000000) ∧
    parse_inr_string (some ("K")) = Except.ok Option.none ∧
    parse_inr_string (some ("")) = Except.ok Option.none := by
  decide

-- ---------------------------------------------------------------------------
-- C5
-- ---------------------------------------------------------------------------

/-- C5: with budget_amount absent and a (truthy) budget label present, the
classifier maps the label to exactly one of the four fixed brackets --
the under-50K bracket (labels containing "0 <") to Range(0, 50000), the
50K-1L bracket (labels containing both ₹50K and ₹1L) to
Range(50000, 100000), the 1L-5L bracket to Range(100000, 500000), any
remaining ">"-style label to MinimumBound(500000) -- and to None when the
label matches none of them. -/
theorem zeno_C5 (st : ReqData) (ha : st.budget_amount = Val.none)
    (hb : truthy st.budget = true) :
    budget_to_desc st = Except.ok (
      if strContains (pyStr st.budget) ("0 <") then
        some (BudgetDesc.range (some 0) (some 50000))
      else if strContains (pyStr st.budget) ("₹50K") && strContains (pyStr st.budget) ("₹1L") then
        some (BudgetDesc.range (some 50000) (some 100000))
      else if strContains (pyStr st.budget) ("₹1L") && strContains (pyStr st.budget) ("₹5L") then
        some (BudgetDesc.range (some 100000) (some 500000))
      else if strContains (pyStr st.budget) (">") then
        some (BudgetDesc.min (some 500000))
      else Option.none) := by
  unfold budget_to_desc
  rw [ha]
  rw [show truthy Val.none = false from rfl]
  rw [if_neg (by simp), if_pos hb]
  unfold labelDesc
  rw [p50K, p1L, p5L]
  split_ifs <;> rfl

/-- C5 witness: a ">"-style label with no numeric override classifies as
the open-ended bracket. -/
theorem zeno_C5_witness :
    budget_to_desc (ReqData.mk Option.none Option.none (Val.str ("> ₹5L")) Val.none) =
      Except.ok (
      if strContains (pyStr (Val.str ("> ₹5L"))) ("0 <") then
        some (BudgetDesc.range (some 0) (some 50000))
      else if strContains (pyStr (Val.str ("> ₹5L"))) ("₹50K") && strContains (pyStr (Val.str ("> ₹5L"))) ("₹1L") then
        some (BudgetDesc.range (some 50000) (some 100000))
      else if strContains (pyStr (Val.str ("> ₹5L"))) ("₹1L") && strContains (pyStr (Val.str ("> ₹5L"))) ("₹5L") then
        some (BudgetDesc.range (some 100000) (some 500000))
      else if strContains (pyStr (Val.str ("> ₹5L"))) (">") then
        some (BudgetDesc.min (some 500000))
      else Option.none) :=
  zeno_C5 (ReqData.mk Option.none Option.none (Val.str ("> ₹5L")) Val.none) rfl (by decide)

-- ---------------------------------------------------------------------------
-- C6
-- ---------------------------------------------------------------------------

/-- C6 (counterexample): the claim says no exception escapes the engine for
any malformed field; but a truthy non-numeric budget_amount reaches
int(amt) on line 136 and the ValueError propagates out of
build_estimate_table_only (it is caught only by the HTTP route). -/
theorem zeno_C6_counterexample :
    build_estimate_table_only
      (ReqData.mk (some ("AI")) Option.none Val.none (Val.str ("abc"))) =
      Except.error PyErr.valueError := by
  decide

/-- C6 (amended): for every record whose budget_amount, when truthy, is
int( )-convertible, the engine returns a rendered result; only a truthy
non-convertible budget_amount raises. -/
theorem zeno_C6_amended (data : ReqData)
    (h : truthy data.budget_amount = true → ∃ n, pyInt data.budget_amount = Except.ok n) :
    ∃ html, build_estimate_table_only data = Except.ok html := by
  have hbd : ∃ d, budget_to_desc data = Except.ok d ∧
      ∃ base, materialize_budget_amount d = Except.ok base := by
    unfold budget_to_desc
    by_cases ht : truthy data.budget_amount = true
    · obtain ⟨n, hn⟩ := h ht
      rw [if_pos ht, hn]
      exact ⟨some (BudgetDesc.fixed n), rfl, some n, rfl⟩
    · rw [if_neg ht]
      by_cases hb : truthy data.budget = true
      · rw [if_pos hb]
        rcases labelDesc_ok_cases (pyStr data.budget) with h5 | h5 | h5 | h5 | h5 <;>
          exact ⟨_, h5, _, rfl⟩
      · rw [if_neg hb]
        exact ⟨Option.none, rfl, Option.none, rfl⟩
  obtain ⟨d, hd, base, hbase⟩ := hbd
  unfold build_estimate_table_only
  simp only [hd]
  unfold build_app_like_table build_web_table
  simp only [hbase]
  split_ifs <;> exact ⟨_, rfl⟩

/-- C6 witness: a well-formed record renders. -/
theorem zeno_C6_witness :
    ∃ html, build_estimate_table_only
      (ReqData.mk (some ("AI")) Option.none Val.none (Val.int 60000)) = Except.ok html :=
  zeno_C6_amended
    (ReqData.mk (some ("AI")) Option.none Val.none (Val.int 60000))
    (fun _ => ⟨60000, rfl⟩)

-- ---------------------------------------------------------------------------
-- C7
-- ---------------------------------------------------------------------------

/-- C7 (counterexample): the claim asserts amount ≥ 0 for every Fixed
descriptor, including records with negative budget_amount; a budget_amount
of -5 is truthy and produces Fixed(-5). -/
theorem zeno_C7_counterexample :
    budget_to_desc (ReqData.mk Option.none Option.none Val.none (Val.int (-5))) =
      Except.ok (some (BudgetDesc.fixed (-5))) ∧
    ¬((0:ℤ) ≤ -5) := by
  decide

/-- C7 (amended): every Range descriptor the classifier constructs is one of
the three fixed brackets (so 0 ≤ min ≤ max holds), every MinimumBound is
500000 (so min ≥ 0 holds), and a Fixed descriptor carries exactly
int(budget_amount) -- nonnegative precisely when the submitted override is. -/
theorem zeno_C7_amended (st : ReqData) (d : BudgetDesc)
    (h : budget_to_desc st = Except.ok (some d)) :
    (∀ mn mx, d = BudgetDesc.range mn mx →
      (mn = some 0 ∧ mx = some 50000) ∨ (mn = some 50000 ∧ mx = some 100000) ∨
      (mn = some 100000 ∧ mx = some 500000)) ∧
    (∀ mn, d = BudgetDesc.min mn → mn = some 500000) ∧
    (∀ a, d = BudgetDesc.fixed a → pyInt st.budget_amount = Except.ok a) := by
  rcases desc_cases st d h with ⟨n, rfl, ht, hok⟩ | rfl | rfl | rfl | rfl
  · refine ⟨fun mn mx heq => ?_, fun mn heq => ?_, fun a heq => ?_⟩
    · cases heq
    · cases heq
    · cases heq
      exact hok
  · refine ⟨fun mn mx heq => ?_, fun mn heq => ?_, fun a heq => ?_⟩
    · cases heq
      simp
    · cases heq
    · cases heq
  · refine ⟨fun mn mx heq => ?_, fun mn heq => ?_, fun a heq => ?_⟩
    · cases heq
      simp
    · cases heq
    · cases heq
  · refine ⟨fun mn mx heq => ?_, fun mn heq => ?_, fun a heq => ?_⟩
    · cases heq
      simp
    · cases heq
    · cases heq
  · refine ⟨fun mn mx heq => ?_, fun mn heq => ?_, fun a heq => ?_⟩
    · cases heq
    · cases heq
      rfl
    · cases heq

/-- C7 witness: a positive override flows through unchanged. -/
theorem zeno_C7_witness :
    pyInt ((ReqData.mk Option.none Option.none Val.none (Val.int 70000)).budget_amount) =
      Except.ok 70000 :=
  (zeno_C7_amended (ReqData.mk Option.none Option.none Val.none (Val.int 70000))
    (BudgetDesc.fixed 70000) (by decide)).2.2 70000 rfl

-- ---------------------------------------------------------------------------
-- C8
-- ---------------------------------------------------------------------------

set_option maxRecDepth 100000 in
/-- C8 (counterexample): the claim says that with both budget fields absent
every allocation line renders as a placeholder for every recognized
category, including the retainer ones; but the Digital Marketing table never
reads the budget: with employee_size 10-100 it renders the numeric retainer
₹40,000/ month and no "-" cell. -/
theorem zeno_C8_counterexample :
    strContains
      (htmlOf (build_estimate_table_only
        (ReqData.mk (some ("Digital Marketing")) (some ("10-100")) Val.none Val.none)))
      ("₹40,000/ month") = true ∧
    strContains
      (htmlOf (build_estimate_table_only
        (ReqData.mk (some ("Digital Marketing")) (some ("10-100")) Val.none Val.none)))
      ("<td>-</td>") = false := by
  decide

set_option maxRecDepth 400000 in
/-- C8 (amended): with both budget fields absent, for the four percentage
categories every cost cell and the total cell render as the "-" placeholder
(costCell and totalCell on a None base are "-", and the rendered block
contains no currency glyph at all); the retainer categories ignore the
budget entirely and render from employee_size alone. -/
theorem zeno_C8_amended (size : Option String) (cat : String)
    (hcat : cat = "AI" ∨ cat = "Software Development" ∨ cat = "App Development" ∨
      cat = "Web Development") :
    (∀ p : ℤ, costCell Option.none p = "-") ∧
    (∀ mapping, totalCell mapping Option.none = "-") ∧
    ∃ html, build_estimate_table_only (ReqData.mk (some cat) size Val.none Val.none) =
        Except.ok html ∧
      strContains html ("₹") = false ∧ strContains html ("<th>-</th>") = true := by
  refine ⟨fun p => rfl, fun mapping => rfl, ?_⟩
  rcases hcat with rfl | rfl | rfl | rfl
  · exact ⟨htmlOf (build_estimate_table_only
      (ReqData.mk (some ("AI")) Option.none Val.none Val.none)), rfl, by decide, by decide⟩
  · exact ⟨htmlOf (build_estimate_table_only
      (ReqData.mk (some ("Software Development")) Option.none Val.none Val.none)), rfl,
      by decide, by decide⟩
  · exact ⟨htmlOf (build_estimate_table_only
      (ReqData.mk (some ("App Development")) Option.none Val.none Val.none)), rfl,
      by decide, by decide⟩
  · exact ⟨htmlOf (build_estimate_table_only
      (ReqData.mk (some ("Web Development")) Option.none Val.none Val.none)), rfl,
      by decide, by decide⟩

/-- C8 witness: the AI table with both budget fields absent renders only
placeholders. -/
theorem zeno_C8_witness :
    ∃ html, build_estimate_table_only
        (ReqData.mk (some ("AI")) Option.none Val.none Val.none) = Except.ok html ∧
      strContains html ("₹") = false ∧ strContains html ("<th>-</th>") = true :=
  (zeno_C8_amended Option.none ("AI") (Or.inl rfl)).2.2

-- ---------------------------------------------------------------------------
-- C9
-- ---------------------------------------------------------------------------

set_option maxRecDepth 100000 in
/-- C9 (counterexample): with employee_size absent the monthly amount is
indeed None, but the row does not render as a placeholder: inr(None) falls
into its except branch and the cell reads ₹None/ month (the "-" placeholder
appears nowhere in the table). -/
theorem zeno_C9_counterexample :
    dm_price_map Option.none = Option.none ∧
    strContains (build_dm_table Option.none) ("₹None/ month") = true ∧
    strContains (build_dm_table Option.none) ("<td>-</td>") = false := by
  decide

set_option maxRecDepth 100000 in
/-- C9 (amended): for the retainer categories, an employee_size outside
{0-10, 10-100, 100+} (absent or unrecognized) yields a None monthly amount
in both price maps, and the rendered retainer cell is the literal fallback
text ₹None/ month, not a numeric amount and not the "-" placeholder. -/
theorem zeno_C9_amended (size : Option String)
    (h1 : size ≠ some ("0-10")) (h2 : size ≠ some ("10-100")) (h3 : size ≠ some ("100+")) :
    dm_price_map size = Option.none ∧ seo_price_map size = Option.none ∧
    strContains (build_dm_table size) ("<td>Monthly Retainer</td><td>₹None/ month</td>") = true ∧
    strContains (build_seo_table size) ("<td>Monthly Retainer</td><td>₹None/ month</td>") = true ∧
    strContains (build_dm_table size) ("<td>-</td>") = false ∧
    strContains (build_seo_table size) ("<td>-</td>") = false := by
  have hd : dm_price_map size = Option.none := by
    simp [dm_price_map, h1, h2, h3]
  have hs : seo_price_map size = Option.none := by
    simp [seo_price_map, h1, h2, h3]
  refine ⟨hd, hs, ?_, ?_, ?_, ?_⟩
  · simp only [build_dm_table, hd]
    decide
  · simp only [build_seo_table, hs]
    decide
  · simp only [build_dm_table, hd]
    decide
  · simp only [build_seo_table, hs]
    decide

set_option maxRecDepth 100000 in
/-- C9 witness: the absent employee_size case. -/
theorem zeno_C9_witness :
    dm_price_map Option.none = Option.none ∧ seo_price_map Option.none = Option.none ∧
    strContains (build_dm_table Option.none) ("<td>Monthly Retainer</td><td>₹None/ month</td>") = true ∧
    strContains (build_seo_table Option.none) ("<td>Monthly Retainer</td><td>₹None/ month</td>") = true ∧
    strContains (build_dm_table Option.none) ("<td>-</td>") = false ∧
    strContains (build_seo_table Option.none) ("<td>-</td>") = false :=
  zeno_C9_amended Option.none (by decide) (by decide) (by decide)

-- ---------------------------------------------------------------------------
-- C10
-- ---------------------------------------------------------------------------

/-- C10: a falsy budget_amount (the number 0, the empty string, or None) is
ignored: the classifier behaves exactly as if the field were absent,
returns None when the label is also absent, and in particular never
produces a Fixed descriptor (so 0 never yields Fixed(0)). -/
theorem zeno_C10 (st : ReqData) (a : Val)
    (ha : a = Val.none ∨ a = Val.int 0 ∨ a = Val.str ("")) :
    budget_to_desc (ReqData.mk st.category st.employee_size st.budget a) =
      budget_to_desc (ReqData.mk st.category st.employee_size st.budget Val.none) ∧
    (st.budget = Val.none →
      budget_to_desc (ReqData.mk st.category st.employee_size st.budget a) =
        Except.ok Option.none) ∧
    (∀ n, budget_to_desc (ReqData.mk st.category st.employee_size st.budget a) ≠
      Except.ok (some (BudgetDesc.fixed n))) := by
  have hfa : truthy a = false := by
    rcases ha with rfl | rfl | rfl <;> decide
  have h0 : truthy Val.none = false := rfl
  refine ⟨?_, ?_, ?_⟩
  · simp [budget_to_desc, hfa, h0]
  · intro hb
    simp [budget_to_desc, hfa, h0, hb]
  · intro n
    by_cases hb : truthy st.budget = true
    · simp only [budget_to_desc, hfa, hb, Bool.false_eq_true, if_false, if_true]
      exact labelDesc_no_fixed (pyStr st.budget) n
    · simp [budget_to_desc, hfa, hb]

/-- C10 witness: a zero override together with an under-50K label is
classified from the label alone. -/
theorem zeno_C10_witness :
    budget_to_desc (ReqData.mk Option.none Option.none (Val.str ("0 < x")) (Val.int 0)) =
      budget_to_desc (ReqData.mk Option.none Option.none (Val.str ("0 < x")) Val.none) :=
  (zeno_C10 (ReqData.mk Option.none Option.none (Val.str ("0 < x")) Val.none)
    (Val.int 0) (Or.inr (Or.inl rfl))).1
